import Mathlib

/-!
Verification development for the inbound carrier sales service.

The repository has two small adapters:
  * a carrier-verification adapter (`fmcsa_verify.py`) that cleans an MC
    number, queries the FMCSA registry over HTTP and normalizes the JSON
    answer into a result record with a small status taxonomy;
  * a persistence adapter (`mongo_client.py`) that lazily connects to a
    document database, searches loads by equipment type and inserts
    carrier-call records, returning `None` as a connection-failure signal.

We shallowly embed both adapters.  JSON values are modelled by the `Json`
inductive below; Python dictionaries are association lists with first-match
lookup (real Python dicts are duplicate-free, on which both semantics
agree).  Python exceptions that the source catches are folded into the
returned record, exactly as the source does; exceptions the source does
not catch (notably `AttributeError` from calling `.get` on a non-dict)
surface as the `Except.error` channel of the embedded function.  External
effects (the HTTP request, the Mongo driver) are passed in as explicit
outcome parameters.
-/

/-- JSON values, as produced by `response.json()` in `fmcsa_verify.py`. -/
inductive Json where
  | null
  | bool (b : Bool)
  | num (n : Int)
  | str (s : String)
  | arr (xs : List Json)
  | obj (kvs : List (String × Json))

/-- Python truthiness (`bool(x)`) for JSON values: `None` and `False` are
falsy, numbers are truthy iff nonzero, and sized values (strings, lists,
dicts) are truthy iff nonempty. -/
def pyTruthy : Json → Bool
  | .null => false
  | .bool b => b
  | .num n => n != 0
  | .str s => s.length != 0
  | .arr xs => xs.length != 0
  | .obj kvs => kvs.length != 0

/-- Python `len(x)` on a JSON value: defined for sized values, `TypeError`
(`none`) otherwise. -/
def pyLen? : Json → Option Nat
  | .str s => some s.length
  | .arr xs => some xs.length
  | .obj kvs => some kvs.length
  | _ => none

/-- Python type names, used only inside modelled exception messages. -/
def pyTypeName : Json → String
  | .null => "NoneType"
  | .bool _ => "bool"
  | .num _ => "int"
  | .str _ => "str"
  | .arr _ => "list"
  | .obj _ => "dict"

/-- The Python exceptions that can arise while the parser indexes into the
response body.  Exception message text is abstracted to the essential part
(for `KeyError` we keep the missing key). -/
inductive PyExn where
  | keyError (k : String)
  | indexError
  | typeError (msg : String)
  | attributeError (msg : String)

/-- Rendering `str(e)` for the modelled exceptions. -/
def pyExnStr : PyExn → String
  | .keyError k => k
  | .indexError => "list index out of range"
  | .typeError m => m
  | .attributeError m => m

/-- Python `x[i]` for an integer index `i`, as used at
`data['content'][0]`.  Lists and strings index positionally
(`IndexError` when out of range); a dict raises `KeyError` because its
keys are strings, never the integer `i`; anything else raises
`TypeError`.  All three exception kinds are caught by the parser. -/
def pyIndexNat (j : Json) (i : Nat) : Except PyExn Json :=
  match j with
  | .arr xs =>
    match xs.get? i with
    | some v => .ok v
    | none => .error .indexError
  | .str s =>
    match s.toList.get? i with
    | some c => .ok (.str (String.mk [c]))
    | none => .error .indexError
  | .obj _ => .error (.keyError (toString i))
  | _ => .error (.typeError "object is not subscriptable")

/-- Python `x[k]` for a string key `k`, as used at `...[0]['carrier']`:
a dict looks the key up (`KeyError` when absent), anything else raises
`TypeError`.  Both are caught by the parser. -/
def pyIndexStr (j : Json) (k : String) : Except PyExn Json :=
  match j with
  | .obj kvs =>
    match kvs.lookup k with
    | some v => .ok v
    | none => .error (.keyError k)
  | _ => .error (.typeError "value is not a dict")

/-- Python `d.get(k, dflt)` on a dict. -/
def dget (d : List (String × Json)) (k : String) (dflt : Json) : Json :=
  (d.lookup k).getD dflt

/-- Python `j == s` for a JSON value against a string literal: true
exactly when `j` is that string. -/
def Json.isStr (j : Json) (s : String) : Bool :=
  match j with
  | .str t => t == s
  | _ => false

/-- Truthiness of `os.getenv(...)`: `None` (unset) and the empty string
are falsy. -/
def pyTruthyOptStr : Option String → Bool
  | none => false
  | some s => s.length != 0

/-- The nested `physical_address` record built by the parser
(lines 125-130 of `fmcsa_verify.py`). -/
structure PhysicalAddress where
  street : Json
  city : Json
  state : Json
  zipcode : Json

/-- The result record returned by `verify_mc_number` /
`parse_fmcsa_response`.  The Python dicts returned on the various branches
have different key sets; keys absent on a branch are `none` here.
`status` and `mc_number` are present on every branch of the source. -/
structure VerifyResult where
  status : String
  mc_number : String
  error : Option String := none
  raw_response : Option Json := none
  dot_number : Option Json := none
  company_name : Option Json := none
  status_code : Option Json := none
  allowed_to_operate : Option Json := none
  safety_rating : Option Json := none
  bipd_insurance_required : Option Bool := none
  cargo_insurance_required : Option Bool := none
  bipd_insurance_on_file : Option Json := none
  cargo_insurance_on_file : Option Json := none
  total_drivers : Option Json := none
  total_power_units : Option Json := none
  physical_address : Option PhysicalAddress := none

/-- Cleaning (fmcsa_verify.py line 22): keep only digit characters. -/
def cleanDigits (s : String) : String :=
  String.mk (s.toList.filter Char.isDigit)

/-- Lines 98-105: the ordered decision list deriving the result status
from the raw `statusCode` and `allowedToOperate` values. -/
def fmcsaStatus (status_code allowed_to_operate : Json) : String :=
  if status_code.isStr "A" && allowed_to_operate.isStr "Y" then "verified"
  else if status_code.isStr "I" || status_code.isStr "U" then "inactive"
  else if allowed_to_operate.isStr "N" then "not_authorized"
  else "unknown"

/-- Lines 83-87 and 82-87: the `not_found` record returned when the
`content` entry is absent or falsy. -/
def noContentResult (mc : String) : VerifyResult :=
  { status := "not_found"
    error := some "No carrier data found in FMCSA response"
    mc_number := mc }

/-- Lines 133-139: the record returned when a caught `KeyError`,
`IndexError` or `TypeError` interrupts parsing; the raw body travels in
`raw_response`. -/
def formatErrorResult (data : Json) (mc : String) (e : PyExn) : VerifyResult :=
  { status := "error"
    error := some ("Unexpected FMCSA response format: " ++ pyExnStr e)
    mc_number := mc
    raw_response := some data }

/-- Lines 92-131: the record built from a successfully extracted carrier
dict `cd`. -/
def successResult (cd : List (String × Json)) (mc : String) : VerifyResult :=
  let status_code := dget cd "statusCode" (Json.str "")
  let allowed_to_operate := dget cd "allowedToOperate" (Json.str "")
  { status := fmcsaStatus status_code allowed_to_operate
    mc_number := mc
    dot_number := some (dget cd "dotNumber" Json.null)
    company_name := some (dget cd "legalName" (Json.str "Unknown"))
    status_code := some status_code
    allowed_to_operate := some allowed_to_operate
    safety_rating := some (dget cd "safetyRating" Json.null)
    bipd_insurance_required := some (Json.isStr (dget cd "bipdInsuranceRequired" (Json.str "")) "Y")
    cargo_insurance_required := some (Json.isStr (dget cd "cargoInsuranceRequired" (Json.str "")) "Y")
    bipd_insurance_on_file := some (dget cd "bipdInsuranceOnFile" Json.null)
    cargo_insurance_on_file := some (dget cd "cargoInsuranceOnFile" Json.null)
    total_drivers := some (dget cd "totalDrivers" Json.null)
    total_power_units := some (dget cd "totalPowerUnits" Json.null)
    physical_address := some
      { street := dget cd "phyStreet" Json.null
        city := dget cd "phyCity" Json.null
        state := dget cd "phyState" Json.null
        zipcode := dget cd "phyZipcode" Json.null } }

/-- Function `parse_fmcsa_response(data, mc_number)` (lines 78-139).  The body
is `data = response.json()`, an arbitrary JSON value.  The source wraps
the whole body in `try ... except (KeyError, IndexError, TypeError)`,
which folds those three exceptions into the `formatErrorResult` record;
an `AttributeError` — raised by `.get` when `data` is not a dict, or when
the extracted `carrier` value is not a dict — is NOT caught and escapes,
modelled by the `Except.error` channel. -/
def parse_fmcsa_response (data : Json) (mc_number : String) : Except PyExn VerifyResult :=
  match data with
  | .obj kvs =>
    match kvs.lookup "content" with
    | none => .ok (noContentResult mc_number)
    | some content =>
      if pyTruthy content = false then .ok (noContentResult mc_number)
      else
        match pyLen? content with
        | none => .ok (formatErrorResult data mc_number (.typeError "object has no len"))
        | some n =>
          if n = 0 then .ok (noContentResult mc_number)
          else
            match pyIndexNat content 0 with
            | .error e => .ok (formatErrorResult data mc_number e)
            | .ok first =>
              match pyIndexStr first "carrier" with
              | .error e => .ok (formatErrorResult data mc_number e)
              | .ok (.obj cd) => .ok (successResult cd mc_number)
              | .ok other =>
                .error (.attributeError (pyTypeName other ++ " object has no attribute get"))
  | _ => .error (.attributeError (pyTypeName data ++ " object has no attribute get"))

/-- The possible outcomes of the single outbound
`requests.get(..., timeout=10)` call: a timeout, another transport
failure, or an HTTP response with a status code and (for the 200 branch)
a parsed JSON body. -/
inductive HttpOutcome where
  | timeout
  | requestFailure (msg : String)
  | response (statusCode : Nat) (body : Json)

/-- Function `verify_mc_number(mc_number)` (lines 8-76).  `api_key` is the value
of `os.getenv('FMCSA_API_KEY')`; `outcome` is the behaviour of the
outbound HTTP request, consulted only when the request is actually
issued.  `Except.error` is an uncaught exception escaping the function
(only possible through `parse_fmcsa_response`: the handlers at lines
65-76 catch only the two requests exception types). -/
def verify_mc_number (api_key : Option String) (outcome : HttpOutcome)
    (mc_number : String) : Except PyExn VerifyResult :=
  let clean_mc := cleanDigits mc_number
  if clean_mc = "" then
    .ok { status := "invalid"
          error := some "Invalid MC number format"
          mc_number := mc_number }
  else if pyTruthyOptStr api_key = false then
    .ok { status := "error"
          error := some "FMCSA API key (webkey) is required but not found in environment variables"
          mc_number := clean_mc }
  else
    match outcome with
    | .timeout =>
      .ok { status := "error"
            error := some "FMCSA API timeout"
            mc_number := mc_number }
    | .requestFailure msg =>
      .ok { status := "error"
            error := some ("Request failed: " ++ msg)
            mc_number := mc_number }
    | .response code body =>
      if code = 200 then parse_fmcsa_response body clean_mc
      else if code = 404 then
        .ok { status := "not_found"
              error := some "MC number not found in FMCSA database"
              mc_number := clean_mc }
      else
        .ok { status := "error"
              error := some ("FMCSA API returned status " ++ toString code)
              mc_number := clean_mc }

/-!
## The persistence adapter (`mongo_client.py`)

State is the field set of the `MongoConnection` object; the live driver
objects (`client`, `db`, `loads_collection`, `carriers_calls_collection`)
are abstracted to presence flags, and the truthiness tests `not self.X`
on them are modelled as `is None` checks.  The behaviour of the external
driver — whether `MongoClient(...)` construction throws, what a query or
an insert does — enters as explicit outcome parameters.  Every method
body sits inside `try ... except Exception`, so no exception ever escapes
the adapter: the result types therefore have no exception channel, and
`none` is the connection-failure sentinel the source returns.
-/

namespace Mongo

/-- Values stored inside documents: plain JSON, the driver object id, or
a `datetime` timestamp (modelled as a number). -/
inductive MVal where
  | js (j : Json)
  | oid (n : Nat)
  | time (t : Nat)

/-- A stored document, as a Python dict. -/
abbrev Doc := List (String × MVal)

/-- Rendering `str(v)` for document values, used when `search_loads_by_equipment`
rewrites `load['_id'] = str(load['_id'])`.  Only scalar renderings are
needed by the source path (ids are `ObjectId`s); container rendering is
collapsed to the type name. -/
def mvalStr : MVal → String
  | .oid n => toString n
  | .time t => toString t
  | .js .null => "None"
  | .js (.bool b) => if b then "True" else "False"
  | .js (.num n) => toString n
  | .js (.str s) => s
  | .js j => pyTypeName j

/-- The environment-variable configuration read by `_initialize`
(lines 27-30): each field is `os.getenv(...)`, `none` when unset. -/
structure MongoEnv where
  mongodb_uri : Option String
  database_name : Option String
  loads_collection_name : Option String
  carriers_calls_collection_name : Option String

/-- The mutable fields of the `MongoConnection` object (lines 11-20).
The four driver objects are presence flags. -/
structure MongoConnState where
  connection_string : Option String := none
  database_name : Option String := none
  loads_collection_name : Option String := none
  carriers_calls_collection_name : Option String := none
  hasClient : Bool := false
  hasDb : Bool := false
  hasLoadsColl : Bool := false
  hasCallsColl : Bool := false
  configLoaded : Bool := false

/-- Method `_initialize` (lines 22-40), with `configLoaded` modelling
`_initialized`.  The returned flag is `true` when a `ValueError` was
raised because a required key is missing; note the source assigns the
four name fields BEFORE checking them, so the assignments survive the
raise.  When no error is raised the method returns `True`. -/
def initConfig (env : MongoEnv) (s : MongoConnState) : MongoConnState × Bool :=
  if s.configLoaded then (s, false)
  else
    let s1 := { s with
      connection_string := env.mongodb_uri
      database_name := env.database_name
      loads_collection_name := env.loads_collection_name
      carriers_calls_collection_name :=
        some (env.carriers_calls_collection_name.getD "carriers_calls") }
    if pyTruthyOptStr s1.connection_string = false then (s1, true)
    else if pyTruthyOptStr s1.database_name = false then (s1, true)
    else if pyTruthyOptStr s1.loads_collection_name = false then (s1, true)
    else ({ s1 with configLoaded := true }, false)

/-- Whether constructing `MongoClient(...)` (line 48) throws. -/
inductive ClientOutcome where
  | ok
  | exn

/-- Method `connect` (lines 42-65).  Its `try` body runs `_initialize` (whose
`ValueError` lands in the blanket `except Exception`), constructs the
client and caches the database and both collection handles.  The except
block closes and clears `self.client` only, and returns `False`; the
dead branch `if not self._initialize(): return False` is unreachable
because `_initialize` only ever returns `True`. -/
def connect (env : MongoEnv) (co : ClientOutcome) (s : MongoConnState) :
    MongoConnState × Bool :=
  let c := initConfig env s
  if c.2 then
    ({ c.1 with hasClient := false }, false)
  else
    match co with
    | .exn => ({ c.1 with hasClient := false }, false)
    | .ok =>
      ({ c.1 with hasClient := true, hasDb := true,
                  hasLoadsColl := true, hasCallsColl := true }, true)

/-- Behaviour of `loads_collection.find(...)` plus the cursor walk:
either the documents it yields, or a thrown exception. -/
inductive QueryOutcome where
  | ok (docs : List Doc)
  | exn

/-- Lines 82-84: stringify the database id when present. -/
def stringifyLoadId (d : Doc) : Doc :=
  if (d.lookup "_id").isSome then
    d.map (fun kv => if kv.1 = "_id" then (kv.1, MVal.js (Json.str (mvalStr kv.2))) else kv)
  else d

/-- Lines 75-92: the query portion of `search_loads_by_equipment`,
entered with a live collection handle.  A throw is caught, the cached
client and loads collection are reset, and `None` is returned. -/
def searchRun (qo : QueryOutcome) (s1 : MongoConnState) :
    MongoConnState × Option (List Doc) :=
  match qo with
  | .ok docs => (s1, some (docs.map stringifyLoadId))
  | .exn => ({ s1 with hasClient := false, hasLoadsColl := false }, none)

/-- Method `search_loads_by_equipment` (lines 67-92).  The equipment-type
filter itself is executed by the database, whose answer is `qo`. -/
def search_loads_by_equipment (env : MongoEnv) (co : ClientOutcome)
    (qo : QueryOutcome) (s : MongoConnState) (equipment_type : String) :
    MongoConnState × Option (List Doc) :=
  if s.hasLoadsColl = false then
    let c := connect env co s
    if c.2 then searchRun qo c.1 else (c.1, none)
  else searchRun qo s

/-- Behaviour of `carriers_calls_collection.insert_one(...)`: the
generated object id and acknowledgement flag, or a thrown exception. -/
inductive InsertOutcome where
  | ok (objectId : Nat) (acknowledged : Bool)
  | exn

/-- The dict built at lines 104-107 of `mongo_client.py`. -/
structure InsertedResult where
  inserted_id : String
  acknowledged : Bool

/-- Lines 101-113: the insert portion of `insert_carrier_call`, entered
with a live collection handle.  The third component records the
documents handed to `insert_one`, so theorems can speak about what was
stored. -/
def insertRun (ins : InsertOutcome) (s1 : MongoConnState) (call_data : Doc) :
    MongoConnState × Option InsertedResult × List Doc :=
  match ins with
  | .ok objectId ack =>
    (s1, some { inserted_id := toString objectId, acknowledged := ack }, [call_data])
  | .exn => ({ s1 with hasClient := false, hasCallsColl := false }, none, [call_data])

/-- Method `insert_carrier_call` (lines 94-113). -/
def insert_carrier_call (env : MongoEnv) (co : ClientOutcome)
    (ins : InsertOutcome) (s : MongoConnState) (call_data : Doc) :
    MongoConnState × Option InsertedResult × List Doc :=
  if s.hasCallsColl = false then
    let c := connect env co s
    if c.2 then insertRun ins c.1 call_data else (c.1, none, [])
  else insertRun ins s call_data

/-- Python dict update `{**data, k: v}` as built by the route handler:
replace the first occurrence of `k` in place, else append. -/
def msetKey : List (String × MVal) → String → MVal → List (String × MVal)
  | [], k, v => [(k, v)]
  | (a, b) :: t, k, v => if a = k then (k, v) :: t else (a, b) :: msetKey t k v

/-- Route handler `create_carrier_call` (api.py lines 105-135, persistence part):
stamp the caller body with `created_at := now` and hand it to
`insert_carrier_call`. -/
def create_carrier_call (env : MongoEnv) (co : ClientOutcome)
    (ins : InsertOutcome) (s : MongoConnState) (data : Doc) (now : Nat) :
    MongoConnState × Option InsertedResult × List Doc :=
  insert_carrier_call env co ins s (msetKey data "created_at" (MVal.time now))

end Mongo

/-- The upstream outcomes that yield status `not_found`: an HTTP 404, or
an HTTP 200 whose object body has a missing or falsy `content` value. -/
def notFoundShape (o : HttpOutcome) : Prop :=
  (∃ body, o = HttpOutcome.response 404 body) ∨
  (∃ kvs, o = HttpOutcome.response 200 (Json.obj kvs) ∧
    (kvs.lookup "content" = none ∨
     ∃ c, kvs.lookup "content" = some c ∧ pyTruthy c = false))


/-! ## Helper lemmas -/

theorem Json.isStr_eq_true_iff (j : Json) (s : String) :
    j.isStr s = true ↔ j = Json.str s := by
  cases j <;> simp [Json.isStr]

theorem Json.isStr_eq_false_iff (j : Json) (s : String) :
    j.isStr s = false ↔ j ≠ Json.str s := by
  rw [← Bool.not_eq_true, not_iff_not]
  exact Json.isStr_eq_true_iff j s

section
open Classical

/-- The decision list, restated with propositional conditions. -/
theorem fmcsaStatus_eq (sc al : Json) :
    fmcsaStatus sc al =
      if sc = Json.str "A" ∧ al = Json.str "Y" then "verified"
      else if sc = Json.str "I" ∨ sc = Json.str "U" then "inactive"
      else if al = Json.str "N" then "not_authorized"
      else "unknown" := by
  simp only [fmcsaStatus, Bool.and_eq_true, Bool.or_eq_true, Json.isStr_eq_true_iff]

/-- Case analysis of the ordered decision list. -/
theorem fmcsaStatus_cases (sc al : Json) :
    (sc = Json.str "A" ∧ al = Json.str "Y" → fmcsaStatus sc al = "verified") ∧
    (sc = Json.str "I" → fmcsaStatus sc al = "inactive") ∧
    (sc = Json.str "U" → fmcsaStatus sc al = "inactive") ∧
    (sc ≠ Json.str "I" → sc ≠ Json.str "U" → al = Json.str "N" →
      fmcsaStatus sc al = "not_authorized") ∧
    (¬(sc = Json.str "A" ∧ al = Json.str "Y") → sc ≠ Json.str "I" →
      sc ≠ Json.str "U" → al ≠ Json.str "N" → fmcsaStatus sc al = "unknown") := by
  rw [fmcsaStatus_eq]
  split_ifs <;> simp_all <;> tauto

/-- The status of a successfully parsed record is one of the four
decision-list outcomes. -/
theorem fmcsaStatus_mem (sc al : Json) :
    fmcsaStatus sc al ∈ ["verified", "inactive", "not_authorized", "unknown"] := by
  rw [fmcsaStatus_eq]
  split_ifs <;> simp

end

theorem successResult_status (cd : List (String × Json)) (mc : String) :
    (successResult cd mc).status =
      fmcsaStatus (dget cd "statusCode" (Json.str ""))
        (dget cd "allowedToOperate" (Json.str "")) := rfl

theorem pyTruthy_len (c : Json) (n : Nat) (ht : pyTruthy c = true)
    (hl : pyLen? c = some n) : n ≠ 0 := by
  cases c <;> simp only [pyLen?, Option.some.injEq, pyTruthy, bne_iff_ne, ne_eq] at ht hl <;>
    first
      | exact Option.noConfusion hl
      | (subst hl; simpa using ht)

/-- A successfully parsed carrier record never carries the `not_found`,
`error` or `invalid` status. -/
theorem fmcsaStatus_ne (sc al : Json) :
    fmcsaStatus sc al ≠ "not_found" ∧ fmcsaStatus sc al ≠ "error" ∧
    fmcsaStatus sc al ≠ "invalid" := by
  rcases (by simpa using fmcsaStatus_mem sc al) with h | h | h | h <;>
    rw [h] <;> exact ⟨by decide, by decide, by decide⟩

/-- Every record `parse_fmcsa_response` returns (rather than raises) is
one of the three record shapes it builds, each carrying `mc`. -/
theorem parse_ok_shape (body : Json) (mc : String) (r : VerifyResult)
    (h : parse_fmcsa_response body mc = Except.ok r) :
    r = noContentResult mc ∨ (∃ e, r = formatErrorResult body mc e) ∨
    ∃ cd, r = successResult cd mc := by
  unfold parse_fmcsa_response at h
  repeat' split at h
  all_goals first
    | exact Except.noConfusion h
    | (injection h with h; subst h; first
        | exact Or.inl rfl
        | exact Or.inr (Or.inl ⟨_, rfl⟩)
        | exact Or.inr (Or.inr ⟨_, rfl⟩))

theorem parse_ok_mc (body : Json) (mc : String) (r : VerifyResult)
    (h : parse_fmcsa_response body mc = Except.ok r) : r.mc_number = mc := by
  rcases parse_ok_shape body mc r h with h1 | ⟨e, h1⟩ | ⟨cd, h1⟩ <;> subst h1 <;> rfl

/-- Reduction: an object body with no `content` key parses to the
`not_found` record. -/
theorem parse_obj_none (kvs : List (String × Json)) (mc : String)
    (hc : kvs.lookup "content" = none) :
    parse_fmcsa_response (Json.obj kvs) mc = Except.ok (noContentResult mc) := by
  simp only [parse_fmcsa_response, hc]

/-- Reduction: an object body with a `content` value continues with the
truthiness check and the extraction chain. -/
theorem parse_obj_some (kvs : List (String × Json)) (c : Json) (mc : String)
    (hc : kvs.lookup "content" = some c) :
    parse_fmcsa_response (Json.obj kvs) mc =
      if pyTruthy c = false then Except.ok (noContentResult mc)
      else
        match pyLen? c with
        | none => Except.ok (formatErrorResult (Json.obj kvs) mc
            (PyExn.typeError "object has no len"))
        | some n =>
          if n = 0 then Except.ok (noContentResult mc)
          else
            match pyIndexNat c 0 with
            | .error e => Except.ok (formatErrorResult (Json.obj kvs) mc e)
            | .ok fst =>
              match pyIndexStr fst "carrier" with
              | .error e => Except.ok (formatErrorResult (Json.obj kvs) mc e)
              | .ok (.obj cd) => Except.ok (successResult cd mc)
              | .ok other => Except.error
                  (PyExn.attributeError (pyTypeName other ++ " object has no attribute get")) := by
  simp only [parse_fmcsa_response, hc]

/-- On a 200 body, `not_found` is returned exactly when the body is a
JSON object whose `content` value is absent or falsy. -/
theorem parse_notfound_iff (body : Json) (mc : String) :
    (∃ r, parse_fmcsa_response body mc = Except.ok r ∧ r.status = "not_found") ↔
    (∃ kvs, body = Json.obj kvs ∧
      (kvs.lookup "content" = none ∨
       ∃ c, kvs.lookup "content" = some c ∧ pyTruthy c = false)) := by
  cases body with
  | obj kvs =>
    rcases hc : kvs.lookup "content" with _ | c
    · rw [parse_obj_none kvs mc hc]
      constructor
      · intro _
        exact ⟨kvs, rfl, Or.inl hc⟩
      · intro _
        exact ⟨noContentResult mc, rfl, rfl⟩
    · rw [parse_obj_some kvs c mc hc]
      by_cases ht : pyTruthy c = false
      · rw [if_pos ht]
        constructor
        · intro _
          exact ⟨kvs, rfl, Or.inr ⟨c, hc, ht⟩⟩
        · intro _
          exact ⟨noContentResult mc, rfl, rfl⟩
      · rw [if_neg ht]
        rw [Bool.not_eq_false] at ht
        constructor
        · rintro ⟨r, hr, hst⟩
          exfalso
          rcases hl : pyLen? c with _ | n <;> simp only [hl] at hr
          · injection hr with hr
            subst hr
            exact absurd hst (by simp [formatErrorResult])
          · rw [if_neg (pyTruthy_len c n ht hl)] at hr
            rcases hi : pyIndexNat c 0 with e | fst <;> simp only [hi] at hr
            · injection hr with hr
              subst hr
              exact absurd hst (by simp [formatErrorResult])
            · rcases hs : pyIndexStr fst "carrier" with e | j
              · simp only [hs] at hr
                injection hr with hr
                subst hr
                exact absurd hst (by simp [formatErrorResult])
              · cases j <;> simp only [hs] at hr <;>
                  first
                    | exact Except.noConfusion hr
                    | (injection hr with hr; subst hr;
                       rw [successResult_status] at hst;
                       exact absurd hst (fmcsaStatus_ne _ _).1)
        · rintro ⟨kvs2, hk, hdis⟩
          injection hk with hk
          subst hk
          rcases hdis with hnone | ⟨c2, hc2, ht2⟩
          · exact Option.noConfusion (hc ▸ hnone)
          · rw [hc] at hc2
            injection hc2 with hc2
            subst hc2
            exact absurd ht2 (by simp [ht])
  | null => simp [parse_fmcsa_response]
  | bool b => simp [parse_fmcsa_response]
  | num n => simp [parse_fmcsa_response]
  | str s => simp [parse_fmcsa_response]
  | arr xs => simp [parse_fmcsa_response]

/-! ## C1: the status decision list -/

/-- C1: for every parsed carrier record, the verification status is
derived from `statusCode` and `allowedToOperate` by the ordered decision
list, first match winning: `A`/`Y` yields `verified`; otherwise a
status code of `I` or `U` yields `inactive` (for `I` regardless of
`allowedToOperate`); otherwise `allowedToOperate = N` yields
`not_authorized`; otherwise `unknown`. -/
theorem C1_status_decision_list (cd : List (String × Json)) (mc : String) :
    parse_fmcsa_response
        (Json.obj [("content", Json.arr [Json.obj [("carrier", Json.obj cd)]])]) mc
      = Except.ok (successResult cd mc) ∧
    (dget cd "statusCode" (Json.str "") = Json.str "A" ∧
     dget cd "allowedToOperate" (Json.str "") = Json.str "Y" →
      (successResult cd mc).status = "verified") ∧
    (dget cd "statusCode" (Json.str "") = Json.str "I" →
      (successResult cd mc).status = "inactive") ∧
    (dget cd "statusCode" (Json.str "") = Json.str "U" →
      (successResult cd mc).status = "inactive") ∧
    (dget cd "statusCode" (Json.str "") ≠ Json.str "I" →
     dget cd "statusCode" (Json.str "") ≠ Json.str "U" →
     dget cd "allowedToOperate" (Json.str "") = Json.str "N" →
      (successResult cd mc).status = "not_authorized") ∧
    (¬(dget cd "statusCode" (Json.str "") = Json.str "A" ∧
       dget cd "allowedToOperate" (Json.str "") = Json.str "Y") →
     dget cd "statusCode" (Json.str "") ≠ Json.str "I" →
     dget cd "statusCode" (Json.str "") ≠ Json.str "U" →
     dget cd "allowedToOperate" (Json.str "") ≠ Json.str "N" →
      (successResult cd mc).status = "unknown") := by
  refine ⟨rfl, ?_⟩
  rw [successResult_status]
  exact fmcsaStatus_cases _ _

/-- Witness for C1 at a concrete active and authorized carrier. -/
theorem C1_status_decision_list_witness :
    parse_fmcsa_response
        (Json.obj [("content", Json.arr [Json.obj [("carrier",
          Json.obj [("statusCode", Json.str "A"), ("allowedToOperate", Json.str "Y")])]])])
        "227271"
      = Except.ok (successResult
          [("statusCode", Json.str "A"), ("allowedToOperate", Json.str "Y")] "227271") ∧
    (successResult
        [("statusCode", Json.str "A"), ("allowedToOperate", Json.str "Y")] "227271").status
      = "verified" :=
  ⟨(C1_status_decision_list
      [("statusCode", Json.str "A"), ("allowedToOperate", Json.str "Y")] "227271").1,
   (C1_status_decision_list
      [("statusCode", Json.str "A"), ("allowedToOperate", Json.str "Y")] "227271").2.1
     ⟨rfl, rfl⟩⟩

/-! ## C2: canonicalization and the invalid branch -/

/-- C2: every identifier is canonicalized by keeping digits only (all
four spellings of MC 227271 canonicalize to `"227271"`); when the
canonical form is empty, `verify_mc_number` returns status `invalid`
carrying the original identifier, for every upstream outcome and every
credential configuration (no lookup outcome is consulted). -/
theorem C2_canonicalize_invalid (mc : String) (api_key : Option String)
    (o : HttpOutcome) (h : cleanDigits mc = "") :
    verify_mc_number api_key o mc =
      Except.ok { status := "invalid", error := some "Invalid MC number format",
                  mc_number := mc } ∧
    cleanDigits "MC-227271" = "227271" ∧ cleanDigits "MC227271" = "227271" ∧
    cleanDigits "227271" = "227271" ∧ cleanDigits "mc-227271" = "227271" := by
  refine ⟨?_, by decide, by decide, by decide, by decide⟩
  simp [verify_mc_number, h]

/-- Witness for C2 at a digit-free identifier, an unavailable upstream
(timeout) and a configured credential. -/
theorem C2_canonicalize_invalid_witness :
    verify_mc_number (some "key") HttpOutcome.timeout "MC-XYZ" =
      Except.ok { status := "invalid", error := some "Invalid MC number format",
                  mc_number := "MC-XYZ" } ∧
    cleanDigits "MC-227271" = "227271" ∧ cleanDigits "MC227271" = "227271" ∧
    cleanDigits "227271" = "227271" ∧ cleanDigits "mc-227271" = "227271" :=
  C2_canonicalize_invalid "MC-XYZ" (some "key") HttpOutcome.timeout (by decide)

/-! ## C5: missing carrier structure in a 200 body -/

/-- C5: a 200 body whose nonempty content list starts with an entry
that lacks the nested `carrier` key yields status `error`, with a
message naming the format mismatch and with the raw body attached. -/
theorem C5_missing_carrier_error (api_key : Option String) (mc : String)
    (kvs f : List (String × Json)) (rest : List Json)
    (h1 : cleanDigits mc ≠ "") (h2 : pyTruthyOptStr api_key = true)
    (hc : kvs.lookup "content" = some (Json.arr (Json.obj f :: rest)))
    (hcar : f.lookup "carrier" = none) :
    verify_mc_number api_key (HttpOutcome.response 200 (Json.obj kvs)) mc =
      Except.ok (formatErrorResult (Json.obj kvs) (cleanDigits mc)
        (PyExn.keyError "carrier")) ∧
    (formatErrorResult (Json.obj kvs) (cleanDigits mc)
        (PyExn.keyError "carrier")).status = "error" ∧
    (formatErrorResult (Json.obj kvs) (cleanDigits mc)
        (PyExn.keyError "carrier")).raw_response = some (Json.obj kvs) ∧
    (formatErrorResult (Json.obj kvs) (cleanDigits mc)
        (PyExn.keyError "carrier")).error =
      some ("Unexpected FMCSA response format: " ++ pyExnStr (PyExn.keyError "carrier")) := by
  refine ⟨?_, rfl, rfl, rfl⟩
  simp [verify_mc_number, h1, h2, parse_fmcsa_response, hc, pyTruthy, pyLen?,
    pyIndexNat, pyIndexStr, hcar]

/-- Witness for C5 at a concrete body `{"content": [{}]}`. -/
theorem C5_missing_carrier_error_witness :
    cleanDigits "227271" ≠ "" ∧
    verify_mc_number (some "key")
        (HttpOutcome.response 200 (Json.obj [("content", Json.arr [Json.obj []])]))
        "227271" =
      Except.ok (formatErrorResult (Json.obj [("content", Json.arr [Json.obj []])])
        (cleanDigits "227271") (PyExn.keyError "carrier")) :=
  ⟨by decide,
   (C5_missing_carrier_error (some "key") "227271" [("content", Json.arr [Json.obj []])]
      [] [] (by decide) (by decide) rfl rfl).1⟩

/-! ## C6: timeout handling -/

/-- C6: when the outbound lookup times out (which presupposes a
non-empty canonical identifier and a configured credential, as otherwise
no lookup is issued), `verify_mc_number` returns status `error` with the
timeout message, carrying the original identifier. -/
theorem C6_timeout_error (mc : String) (api_key : Option String)
    (h1 : cleanDigits mc ≠ "") (h2 : pyTruthyOptStr api_key = true) :
    verify_mc_number api_key HttpOutcome.timeout mc =
      Except.ok { status := "error", error := some "FMCSA API timeout",
                  mc_number := mc } := by
  simp [verify_mc_number, h1, h2]

/-- Witness for C6: with the prefixed identifier the original string, not
the cleaned one, is carried back. -/
theorem C6_timeout_error_witness :
    cleanDigits "MC-227271" ≠ "" ∧
    verify_mc_number (some "key") HttpOutcome.timeout "MC-227271" =
      Except.ok { status := "error", error := some "FMCSA API timeout",
                  mc_number := "MC-227271" } :=
  ⟨by decide, C6_timeout_error "MC-227271" (some "key") (by decide) (by decide)⟩

/-! ## C4: when `not_found` is produced -/

/-- C4 counterexample: with `{"content": false}` in a 200 body — the
`content` key present but holding neither a list nor a missing value —
the code still returns `not_found`, because the source tests Python
falsiness (`not data.get('content')`), not emptiness of a list.  This
refutes the claim that 404 and an empty-or-missing content LIST are the
only `not_found` sources. -/
theorem C4_notfound_counterexample :
    ([("content", Json.bool false)] : List (String × Json)).lookup "content"
      = some (Json.bool false) ∧
    verify_mc_number (some "key")
        (HttpOutcome.response 200 (Json.obj [("content", Json.bool false)])) "227271" =
      Except.ok { status := "not_found",
                  error := some "No carrier data found in FMCSA response",
                  mc_number := "227271" } :=
  ⟨rfl, rfl⟩

/-- C4 (amended): for a non-empty canonical identifier and a configured
credential, `verify_mc_number` returns status `not_found` exactly when
the upstream answered 404, or answered 200 with an object body whose
`content` value is missing or falsy; such a result carries the cleaned
identifier. -/
theorem C4_amended_notfound_iff (mc : String) (api_key : Option String)
    (o : HttpOutcome) (h1 : cleanDigits mc ≠ "")
    (h2 : pyTruthyOptStr api_key = true) :
    ((∃ r, verify_mc_number api_key o mc = Except.ok r ∧ r.status = "not_found") ↔
      notFoundShape o) ∧
    ∀ r, verify_mc_number api_key o mc = Except.ok r → r.status = "not_found" →
      r.mc_number = cleanDigits mc := by
  have h2f : ¬ pyTruthyOptStr api_key = false := by simp [h2]
  cases o with
  | timeout =>
    refine ⟨⟨?_, ?_⟩, ?_⟩
    · rintro ⟨r, hr, hst⟩
      simp only [verify_mc_number, if_neg h1, if_neg h2f] at hr
      injection hr with hr
      subst hr
      exact absurd hst (by simp)
    · rintro (⟨b, hb⟩ | ⟨kvs, hb, _⟩) <;> exact HttpOutcome.noConfusion hb
    · intro r hr hst
      simp only [verify_mc_number, if_neg h1, if_neg h2f] at hr
      injection hr with hr
      subst hr
      exact absurd hst (by simp)
  | requestFailure msg =>
    refine ⟨⟨?_, ?_⟩, ?_⟩
    · rintro ⟨r, hr, hst⟩
      simp only [verify_mc_number, if_neg h1, if_neg h2f] at hr
      injection hr with hr
      subst hr
      exact absurd hst (by simp)
    · rintro (⟨b, hb⟩ | ⟨kvs, hb, _⟩) <;> exact HttpOutcome.noConfusion hb
    · intro r hr hst
      simp only [verify_mc_number, if_neg h1, if_neg h2f] at hr
      injection hr with hr
      subst hr
      exact absurd hst (by simp)
  | response code body =>
    have hv : verify_mc_number api_key (HttpOutcome.response code body) mc =
        (if code = 200 then parse_fmcsa_response body (cleanDigits mc)
         else if code = 404 then
           Except.ok { status := "not_found",
                       error := some "MC number not found in FMCSA database",
                       mc_number := cleanDigits mc }
         else
           Except.ok { status := "error",
                       error := some ("FMCSA API returned status " ++ toString code),
                       mc_number := cleanDigits mc }) := by
      simp only [verify_mc_number, if_neg h1, if_neg h2f]
    by_cases hc200 : code = 200
    · subst hc200
      rw [if_pos rfl] at hv
      refine ⟨?_, ?_⟩
      · rw [hv]
        rw [parse_notfound_iff body (cleanDigits mc)]
        constructor
        · rintro ⟨kvs, hb, hdis⟩
          subst hb
          exact Or.inr ⟨kvs, rfl, hdis⟩
        · rintro (⟨b, hb⟩ | ⟨kvs, hb, hdis⟩)
          · injection hb with hb1 hb2
            exact absurd hb1 (by decide)
          · injection hb with hb1 hb2
            exact ⟨kvs, hb2, hdis⟩
      · intro r hr _
        rw [hv] at hr
        exact parse_ok_mc _ _ _ hr
    · by_cases hc404 : code = 404
      · subst hc404
        rw [if_neg (by decide), if_pos rfl] at hv
        refine ⟨⟨?_, ?_⟩, ?_⟩
        · intro _
          exact Or.inl ⟨body, rfl⟩
        · intro _
          exact ⟨_, hv, rfl⟩
        · intro r hr _
          rw [hv] at hr
          injection hr with hr
          subst hr
          rfl
      · rw [if_neg hc200, if_neg hc404] at hv
        refine ⟨⟨?_, ?_⟩, ?_⟩
        · rintro ⟨r, hr, hst⟩
          rw [hv] at hr
          injection hr with hr
          subst hr
          exact absurd hst (by simp)
        · rintro (⟨b, hb⟩ | ⟨kvs, hb, _⟩) <;> injection hb with hb1 hb2 <;>
            first
              | exact absurd hb1 hc404
              | exact absurd hb1 hc200
        · intro r hr hst
          rw [hv] at hr
          injection hr with hr
          subst hr
          exact absurd hst (by simp)

/-- Witness for C4 (amended) at a concrete 404 outcome. -/
theorem C4_amended_notfound_iff_witness :
    ((∃ r, verify_mc_number (some "key") (HttpOutcome.response 404 Json.null) "227271"
        = Except.ok r ∧ r.status = "not_found") ↔
      notFoundShape (HttpOutcome.response 404 Json.null)) ∧
    ∀ r, verify_mc_number (some "key") (HttpOutcome.response 404 Json.null) "227271"
        = Except.ok r → r.status = "not_found" → r.mc_number = cleanDigits "227271" :=
  C4_amended_notfound_iff "227271" (some "key") (HttpOutcome.response 404 Json.null)
    (by decide) (by decide)

/-! ## C8: the status taxonomy invariant -/

/-- C8 counterexample: a parseable 200 body that is a JSON array (not an
object) makes `data.get('content')` raise `AttributeError`, which neither
exception handler catches; `verify_mc_number` produces no result record
at all, refuting the claim for arbitrary parseable bodies. -/
theorem C8_taxonomy_counterexample :
    verify_mc_number (some "key")
        (HttpOutcome.response 200 (Json.arr [Json.num 1])) "227271" =
      Except.error (PyExn.attributeError "list object has no attribute get") :=
  rfl

/-- C8 (amended): whenever `verify_mc_number` returns a result record
(it instead raises an uncaught `AttributeError` exactly when a 200 body
is not a JSON object, or its extracted `carrier` value is not an
object), the record's status is one of the seven values `verified`,
`inactive`, `not_authorized`, `unknown`, `not_found`, `invalid`,
`error`, and the record carries an identifier: the original or the
cleaned MC number. -/
theorem C8_amended_taxonomy (api_key : Option String) (o : HttpOutcome)
    (mc : String) (r : VerifyResult)
    (h : verify_mc_number api_key o mc = Except.ok r) :
    r.status ∈ ["verified", "inactive", "not_authorized", "unknown",
                "not_found", "invalid", "error"] ∧
    (r.mc_number = mc ∨ r.mc_number = cleanDigits mc) := by
  unfold verify_mc_number at h
  by_cases h1 : cleanDigits mc = ""
  · rw [if_pos h1] at h
    injection h with h
    subst h
    exact ⟨by simp, Or.inl rfl⟩
  · rw [if_neg h1] at h
    by_cases h2 : pyTruthyOptStr api_key = false
    · rw [if_pos h2] at h
      injection h with h
      subst h
      exact ⟨by simp, Or.inr rfl⟩
    · rw [if_neg h2] at h
      cases o with
      | timeout =>
        injection h with h
        subst h
        exact ⟨by simp, Or.inl rfl⟩
      | requestFailure msg =>
        injection h with h
        subst h
        exact ⟨by simp, Or.inl rfl⟩
      | response code body =>
        replace h :
            (if code = 200 then parse_fmcsa_response body (cleanDigits mc)
             else if code = 404 then
               Except.ok { status := "not_found",
                           error := some "MC number not found in FMCSA database",
                           mc_number := cleanDigits mc }
             else
               Except.ok { status := "error",
                           error := some ("FMCSA API returned status " ++ toString code),
                           mc_number := cleanDigits mc }) = Except.ok r := h
        by_cases hc200 : code = 200
        · rw [if_pos hc200] at h
          rcases parse_ok_shape body (cleanDigits mc) r h with hs | ⟨e, hs⟩ | ⟨cd, hs⟩ <;>
            subst hs
          · exact ⟨by simp [noContentResult], Or.inr rfl⟩
          · exact ⟨by simp [formatErrorResult], Or.inr rfl⟩
          · refine ⟨?_, Or.inr rfl⟩
            rw [successResult_status]
            have h4 := fmcsaStatus_mem (dget cd "statusCode" (Json.str ""))
              (dget cd "allowedToOperate" (Json.str ""))
            simp only [List.mem_cons, List.not_mem_nil, or_false] at h4
            rcases h4 with h4 | h4 | h4 | h4 <;> simp [h4]
        · rw [if_neg hc200] at h
          by_cases hc404 : code = 404
          · rw [if_pos hc404] at h
            injection h with h
            subst h
            exact ⟨by simp, Or.inr rfl⟩
          · rw [if_neg hc404] at h
            injection h with h
            subst h
            exact ⟨by simp, Or.inr rfl⟩

/-- Witness for C8 (amended) at a concrete verified carrier response. -/
theorem C8_amended_taxonomy_witness :
    (successResult [("statusCode", Json.str "A"), ("allowedToOperate", Json.str "Y")]
        "227271").status ∈
      ["verified", "inactive", "not_authorized", "unknown",
       "not_found", "invalid", "error"] ∧
    ((successResult [("statusCode", Json.str "A"), ("allowedToOperate", Json.str "Y")]
        "227271").mc_number = "MC-227271" ∨
     (successResult [("statusCode", Json.str "A"), ("allowedToOperate", Json.str "Y")]
        "227271").mc_number = cleanDigits "MC-227271") :=
  C8_amended_taxonomy (some "key")
    (HttpOutcome.response 200 (Json.obj [("content", Json.arr [Json.obj [("carrier",
      Json.obj [("statusCode", Json.str "A"), ("allowedToOperate", Json.str "Y")])]])]))
    "MC-227271"
    (successResult [("statusCode", Json.str "A"), ("allowedToOperate", Json.str "Y")]
      "227271")
    rfl

/-! ## C10: missing status fields default; only structural failures error -/

/-- C10: in a 200 body whose nonempty content list starts with an entry
holding a carrier record, a carrier record merely lacking `statusCode`
or `allowedToOperate` does not reach the error branch: the fields
default to the empty string and the decision list yields a normal
status (`unknown` when both are absent).  Conversely, a returned
`error` status only arises from a structural failure: the `content`
value is truthy but is not a nonempty list whose first entry is an
object carrying a `carrier` key. -/
theorem C10_structural_only (kvs f cd : List (String × Json)) (rest : List Json)
    (mc : String)
    (hc : kvs.lookup "content" = some (Json.arr (Json.obj f :: rest)))
    (hcar : f.lookup "carrier" = some (Json.obj cd)) :
    parse_fmcsa_response (Json.obj kvs) mc = Except.ok (successResult cd mc) ∧
    (successResult cd mc).status ≠ "error" ∧
    (cd.lookup "statusCode" = none → cd.lookup "allowedToOperate" = none →
      (successResult cd mc).status = "unknown" ∧
      (successResult cd mc).status_code = some (Json.str "") ∧
      (successResult cd mc).allowed_to_operate = some (Json.str "")) ∧
    (∀ (body : Json) (r : VerifyResult), parse_fmcsa_response body mc = Except.ok r →
      r.status = "error" →
      ∃ kvs2 c, body = Json.obj kvs2 ∧ kvs2.lookup "content" = some c ∧
        pyTruthy c = true ∧
        ¬ ∃ x t f2 cj, c = Json.arr (x :: t) ∧ x = Json.obj f2 ∧
            f2.lookup "carrier" = some cj) := by
  refine ⟨?_, ?_, ?_, ?_⟩
  · rw [parse_obj_some kvs (Json.arr (Json.obj f :: rest)) mc hc]
    rw [if_neg (by simp [pyTruthy])]
    simp only [pyLen?, List.length_cons]
    rw [if_neg (Nat.succ_ne_zero rest.length)]
    simp only [pyIndexNat, List.get?_cons_zero]
    simp only [pyIndexStr, hcar]
  · rw [successResult_status]
    exact (fmcsaStatus_ne _ _).2.1
  · intro hsc hal
    have e1 : dget cd "statusCode" (Json.str "") = Json.str "" := by
      simp [dget, hsc]
    have e2 : dget cd "allowedToOperate" (Json.str "") = Json.str "" := by
      simp [dget, hal]
    refine ⟨?_, ?_, ?_⟩
    · rw [successResult_status, e1, e2]
      decide
    · simp [successResult, e1]
    · simp [successResult, e2]
  · intro body r hbody hst
    cases body with
    | obj kvs2 =>
      rcases hc2 : kvs2.lookup "content" with _ | c
      · rw [parse_obj_none kvs2 mc hc2] at hbody
        injection hbody with hbody
        subst hbody
        exact absurd hst (by simp [noContentResult])
      · rw [parse_obj_some kvs2 c mc hc2] at hbody
        by_cases ht : pyTruthy c = false
        · rw [if_pos ht] at hbody
          injection hbody with hbody
          subst hbody
          exact absurd hst (by simp [noContentResult])
        · rw [if_neg ht] at hbody
          rw [Bool.not_eq_false] at ht
          refine ⟨kvs2, c, rfl, hc2, ht, ?_⟩
          rintro ⟨x, t, f2, cj, hcarr, hx, hlk⟩
          subst hcarr
          subst hx
          simp only [pyLen?, List.length_cons] at hbody
          rw [if_neg (Nat.succ_ne_zero t.length)] at hbody
          simp only [pyIndexNat, List.get?_cons_zero] at hbody
          simp only [pyIndexStr, hlk] at hbody
          cases cj <;>
            first
              | exact Except.noConfusion hbody
              | (injection hbody with hbody; subst hbody;
                 rw [successResult_status] at hst;
                 exact (fmcsaStatus_ne _ _).2.1 hst)
    | null => simp [parse_fmcsa_response] at hbody
    | bool b => simp [parse_fmcsa_response] at hbody
    | num n => simp [parse_fmcsa_response] at hbody
    | str s => simp [parse_fmcsa_response] at hbody
    | arr xs => simp [parse_fmcsa_response] at hbody

/-- Witness for C10 at the body `{"content": [{"carrier": {}}]}`, whose
carrier record lacks both status fields. -/
theorem C10_structural_only_witness :
    parse_fmcsa_response
        (Json.obj [("content", Json.arr [Json.obj [("carrier", Json.obj [])]])]) "227271"
      = Except.ok (successResult [] "227271") ∧
    (successResult [] "227271").status ≠ "error" ∧
    (([] : List (String × Json)).lookup "statusCode" = none →
     ([] : List (String × Json)).lookup "allowedToOperate" = none →
      (successResult [] "227271").status = "unknown" ∧
      (successResult [] "227271").status_code = some (Json.str "") ∧
      (successResult [] "227271").allowed_to_operate = some (Json.str "")) ∧
    (∀ (body : Json) (r : VerifyResult),
      parse_fmcsa_response body "227271" = Except.ok r → r.status = "error" →
      ∃ kvs2 c, body = Json.obj kvs2 ∧ kvs2.lookup "content" = some c ∧
        pyTruthy c = true ∧
        ¬ ∃ x t f2 cj, c = Json.arr (x :: t) ∧ x = Json.obj f2 ∧
            f2.lookup "carrier" = some cj) :=
  C10_structural_only [("content", Json.arr [Json.obj [("carrier", Json.obj [])]])]
    [("carrier", Json.obj [])] [] [] "227271" rfl rfl

/-! ## Mongo helper lemmas -/

theorem Mongo.initConfig_flags (env : Mongo.MongoEnv) (s : Mongo.MongoConnState) :
    (Mongo.initConfig env s).1.hasClient = s.hasClient ∧
    (Mongo.initConfig env s).1.hasLoadsColl = s.hasLoadsColl ∧
    (Mongo.initConfig env s).1.hasCallsColl = s.hasCallsColl := by
  simp only [Mongo.initConfig]
  split_ifs <;> simp

/-- When `connect` reports failure, the client is cleared and the cached
collection flags are unchanged. -/
theorem Mongo.connect_false_state (env : Mongo.MongoEnv) (co : Mongo.ClientOutcome)
    (s : Mongo.MongoConnState) (h : (Mongo.connect env co s).2 = false) :
    (Mongo.connect env co s).1.hasClient = false ∧
    (Mongo.connect env co s).1.hasLoadsColl = s.hasLoadsColl ∧
    (Mongo.connect env co s).1.hasCallsColl = s.hasCallsColl := by
  have hf := Mongo.initConfig_flags env s
  by_cases hz : (Mongo.initConfig env s).2 = true
  · simp [Mongo.connect, hz, hf.2.1, hf.2.2]
  · cases co <;> simp [Mongo.connect, hz, hf.2.1, hf.2.2] at h ⊢

theorem Mongo.msetKey_lookup (d : List (String × Mongo.MVal)) (k : String)
    (v : Mongo.MVal) :
    (Mongo.msetKey d k v).lookup k = some v := by
  induction d with
  | nil => simp [Mongo.msetKey, List.lookup]
  | cons hd tl ih =>
    rcases hd with ⟨a, b⟩
    by_cases hak : a = k
    · subst hak
      simp [Mongo.msetKey, List.lookup]
    · have hba : (k == a) = false := by simp [Ne.symm hak]
      simp [Mongo.msetKey, hak, List.lookup, hba, ih]

/-! ## C3: missing configuration at first use -/

/-- C3 counterexample: with `MONGODB_URI` unset, the first use of the
adapter (fresh state, a `search_loads_by_equipment` call) does NOT raise
the configuration error to the caller: `_initialize` raises a
`ValueError`, but `connect` catches every exception and returns `False`,
so the call returns the ordinary connection-failure sentinel `none`. -/
theorem C3_config_counterexample :
    (Mongo.initConfig
        { mongodb_uri := none, database_name := some "db",
          loads_collection_name := some "loads",
          carriers_calls_collection_name := none } {}).2 = true ∧
    Mongo.search_loads_by_equipment
        { mongodb_uri := none, database_name := some "db",
          loads_collection_name := some "loads",
          carriers_calls_collection_name := none }
        Mongo.ClientOutcome.ok (Mongo.QueryOutcome.ok []) {} "flatbed" =
      ((Mongo.connect
          { mongodb_uri := none, database_name := some "db",
            loads_collection_name := some "loads",
            carriers_calls_collection_name := none }
          Mongo.ClientOutcome.ok {}).1, none) :=
  ⟨rfl, rfl⟩

/-- C3 (amended): when a required persistence configuration key is
missing, the lazy `_initialize` raises a configuration error at first
use (never at construction), but `connect` catches it, so the first
call to `search_loads_by_equipment` or `insert_carrier_call` returns
the ordinary connection-failure sentinel instead of propagating the
error to the caller. -/
theorem C3_amended_config_recovered (env : Mongo.MongoEnv)
    (co : Mongo.ClientOutcome) (qo : Mongo.QueryOutcome)
    (ins : Mongo.InsertOutcome) (et : String) (d : Mongo.Doc)
    (h : pyTruthyOptStr env.mongodb_uri = false ∨
         pyTruthyOptStr env.database_name = false ∨
         pyTruthyOptStr env.loads_collection_name = false) :
    (Mongo.initConfig env {}).2 = true ∧
    (Mongo.connect env co {}).2 = false ∧
    Mongo.search_loads_by_equipment env co qo {} et =
      ((Mongo.connect env co {}).1, none) ∧
    Mongo.insert_carrier_call env co ins {} d =
      ((Mongo.connect env co {}).1, none, []) := by
  have hi : (Mongo.initConfig env ({} : Mongo.MongoConnState)).2 = true := by
    by_cases h1 : pyTruthyOptStr env.mongodb_uri = false <;>
    by_cases h2 : pyTruthyOptStr env.database_name = false <;>
    by_cases h3 : pyTruthyOptStr env.loads_collection_name = false <;>
      simp_all [Mongo.initConfig]
  have hcf : (Mongo.connect env co ({} : Mongo.MongoConnState)).2 = false := by
    simp [Mongo.connect, hi]
  refine ⟨hi, hcf, ?_, ?_⟩
  · simp [Mongo.search_loads_by_equipment, hcf]
  · simp [Mongo.insert_carrier_call, hcf]

/-- Witness for C3 (amended): concrete environment with the connection
string missing. -/
theorem C3_amended_config_recovered_witness :
    (Mongo.initConfig
        { mongodb_uri := none, database_name := some "db",
          loads_collection_name := some "loads",
          carriers_calls_collection_name := none } {}).2 = true ∧
    (Mongo.connect
        { mongodb_uri := none, database_name := some "db",
          loads_collection_name := some "loads",
          carriers_calls_collection_name := none }
        Mongo.ClientOutcome.ok {}).2 = false ∧
    Mongo.search_loads_by_equipment
        { mongodb_uri := none, database_name := some "db",
          loads_collection_name := some "loads",
          carriers_calls_collection_name := none }
        Mongo.ClientOutcome.ok (Mongo.QueryOutcome.ok []) {} "reefer" =
      ((Mongo.connect
          { mongodb_uri := none, database_name := some "db",
            loads_collection_name := some "loads",
            carriers_calls_collection_name := none }
          Mongo.ClientOutcome.ok {}).1, none) ∧
    Mongo.insert_carrier_call
        { mongodb_uri := none, database_name := some "db",
          loads_collection_name := some "loads",
          carriers_calls_collection_name := none }
        Mongo.ClientOutcome.ok (Mongo.InsertOutcome.ok 7 true) {} [] =
      ((Mongo.connect
          { mongodb_uri := none, database_name := some "db",
            loads_collection_name := some "loads",
            carriers_calls_collection_name := none }
          Mongo.ClientOutcome.ok {}).1, none, []) :=
  C3_amended_config_recovered
    { mongodb_uri := none, database_name := some "db",
      loads_collection_name := some "loads",
      carriers_calls_collection_name := none }
    Mongo.ClientOutcome.ok (Mongo.QueryOutcome.ok [])
    (Mongo.InsertOutcome.ok 7 true) "reefer" [] (Or.inl rfl)

/-! ## C7: search failure returns the sentinel and resets state -/

/-- C7: if `search_loads_by_equipment` cannot establish a connection or
its query throws, it returns the connection-failure sentinel `none` (no
exception escapes — the result type has no exception channel) and
clears the cached client and loads-collection state, so that a
following call, whose cached collection flag is down, goes through
`connect` again instead of reusing the failed connection. -/
theorem C7_search_failure_resets (env : Mongo.MongoEnv)
    (co : Mongo.ClientOutcome) (qo : Mongo.QueryOutcome)
    (s : Mongo.MongoConnState) (et : String) :
    (s.hasLoadsColl = false → (Mongo.connect env co s).2 = false →
      Mongo.search_loads_by_equipment env co qo s et =
        ((Mongo.connect env co s).1, none) ∧
      (Mongo.connect env co s).1.hasClient = false ∧
      (Mongo.connect env co s).1.hasLoadsColl = false) ∧
    ((s.hasLoadsColl = true ∨ (Mongo.connect env co s).2 = true) →
      ∃ s2, Mongo.search_loads_by_equipment env co Mongo.QueryOutcome.exn s et =
          (s2, none) ∧ s2.hasClient = false ∧ s2.hasLoadsColl = false) ∧
    (s.hasLoadsColl = false →
      Mongo.search_loads_by_equipment env co qo s et =
        (if (Mongo.connect env co s).2 then
          Mongo.searchRun qo (Mongo.connect env co s).1
         else ((Mongo.connect env co s).1, none))) := by
  refine ⟨?_, ?_, ?_⟩
  · intro hl hcf
    have hst := Mongo.connect_false_state env co s hcf
    refine ⟨?_, hst.1, ?_⟩
    · simp [Mongo.search_loads_by_equipment, hl, hcf]
    · rw [hst.2.1, hl]
  · intro hor
    by_cases hl : s.hasLoadsColl = false
    · have hc : (Mongo.connect env co s).2 = true := by
        rcases hor with h | h
        · rw [hl] at h
          exact absurd h (by decide)
        · exact h
      refine ⟨{ (Mongo.connect env co s).1 with
                  hasClient := false, hasLoadsColl := false }, ?_, rfl, rfl⟩
      simp [Mongo.search_loads_by_equipment, hl, hc, Mongo.searchRun]
    · have hl2 : s.hasLoadsColl = true := by simpa using hl
      refine ⟨{ s with hasClient := false, hasLoadsColl := false }, ?_, rfl, rfl⟩
      simp [Mongo.search_loads_by_equipment, hl2, Mongo.searchRun]
  · intro hl
    simp [Mongo.search_loads_by_equipment, hl]

/-- Witness for C7: a cached connection whose query throws is reset. -/
theorem C7_search_failure_resets_witness :
    ∃ s2, Mongo.search_loads_by_equipment
        { mongodb_uri := some "uri", database_name := some "db",
          loads_collection_name := some "loads",
          carriers_calls_collection_name := none }
        Mongo.ClientOutcome.ok Mongo.QueryOutcome.exn
        { hasClient := true, hasDb := true, hasLoadsColl := true,
          hasCallsColl := true, configLoaded := true } "flatbed" =
      (s2, none) ∧ s2.hasClient = false ∧ s2.hasLoadsColl = false :=
  (C7_search_failure_resets
    { mongodb_uri := some "uri", database_name := some "db",
      loads_collection_name := some "loads",
      carriers_calls_collection_name := none }
    Mongo.ClientOutcome.ok Mongo.QueryOutcome.exn
    { hasClient := true, hasDb := true, hasLoadsColl := true,
      hasCallsColl := true, configLoaded := true } "flatbed").2.1 (Or.inl rfl)

/-! ## C9: insert returns the id and stores the document unchanged -/

/-- C9: whenever `insert_carrier_call` (via the route handler
`create_carrier_call`, which stamps `created_at := now` before calling)
returns a success result, the result is the database-generated id
rendered as a string together with the acknowledgement flag, and the
single document handed to the database is exactly the stamped caller
document — in particular its `created_at` is the caller-stamped time,
not recomputed by the adapter. -/
theorem C9_insert_id_and_doc (env : Mongo.MongoEnv) (co : Mongo.ClientOutcome)
    (ins : Mongo.InsertOutcome) (s : Mongo.MongoConnState) (data : Mongo.Doc)
    (now : Nat) (s2 : Mongo.MongoConnState) (r : Mongo.InsertedResult)
    (sent : List Mongo.Doc)
    (h : Mongo.create_carrier_call env co ins s data now = (s2, some r, sent)) :
    ∃ oid ack, ins = Mongo.InsertOutcome.ok oid ack ∧
      r.inserted_id = toString oid ∧ r.acknowledged = ack ∧
      sent = [Mongo.msetKey data "created_at" (Mongo.MVal.time now)] ∧
      (Mongo.msetKey data "created_at" (Mongo.MVal.time now)).lookup "created_at" =
        some (Mongo.MVal.time now) := by
  simp only [Mongo.create_carrier_call, Mongo.insert_carrier_call] at h
  by_cases hcc : s.hasCallsColl = false
  · rw [if_pos hcc] at h
    by_cases hc2 : (Mongo.connect env co s).2 = true
    · rw [if_pos hc2] at h
      cases ins with
      | ok oid ack =>
        simp only [Mongo.insertRun, Prod.mk.injEq] at h
        obtain ⟨h1, h2, h3⟩ := h
        injection h2 with h2
        subst h2
        exact ⟨oid, ack, rfl, rfl, rfl, h3.symm,
          Mongo.msetKey_lookup data "created_at" (Mongo.MVal.time now)⟩
      | exn =>
        simp only [Mongo.insertRun, Prod.mk.injEq] at h
        exact absurd h.2.1 (by simp)
    · rw [if_neg hc2] at h
      simp only [Prod.mk.injEq] at h
      exact absurd h.2.1 (by simp)
  · rw [if_neg hcc] at h
    cases ins with
    | ok oid ack =>
      simp only [Mongo.insertRun, Prod.mk.injEq] at h
      obtain ⟨h1, h2, h3⟩ := h
      injection h2 with h2
      subst h2
      exact ⟨oid, ack, rfl, rfl, rfl, h3.symm,
        Mongo.msetKey_lookup data "created_at" (Mongo.MVal.time now)⟩
    | exn =>
      simp only [Mongo.insertRun, Prod.mk.injEq] at h
      exact absurd h.2.1 (by simp)

/-- Witness for C9 at a concrete successful insert. -/
theorem C9_insert_id_and_doc_witness :
    ∃ oid ack, Mongo.InsertOutcome.ok 7 true = Mongo.InsertOutcome.ok oid ack ∧
      (Mongo.InsertedResult.mk "7" true).inserted_id = toString oid ∧
      (Mongo.InsertedResult.mk "7" true).acknowledged = ack ∧
      [[("mc_number", Mongo.MVal.js (Json.str "227271")),
        ("created_at", Mongo.MVal.time 42)]] =
        [Mongo.msetKey [("mc_number", Mongo.MVal.js (Json.str "227271"))]
          "created_at" (Mongo.MVal.time 42)] ∧
      (Mongo.msetKey [("mc_number", Mongo.MVal.js (Json.str "227271"))]
          "created_at" (Mongo.MVal.time 42)).lookup "created_at" =
        some (Mongo.MVal.time 42) :=
  C9_insert_id_and_doc
    { mongodb_uri := some "uri", database_name := some "db",
      loads_collection_name := some "loads",
      carriers_calls_collection_name := none }
    Mongo.ClientOutcome.ok (Mongo.InsertOutcome.ok 7 true) {}
    [("mc_number", Mongo.MVal.js (Json.str "227271"))] 42
    { connection_string := some "uri", database_name := some "db",
      loads_collection_name := some "loads",
      carriers_calls_collection_name := some "carriers_calls",
      hasClient := true, hasDb := true, hasLoadsColl := true,
      hasCallsColl := true, configLoaded := true }
    (Mongo.InsertedResult.mk "7" true)
    [[("mc_number", Mongo.MVal.js (Json.str "227271")),
      ("created_at", Mongo.MVal.time 42)]]
    rfl
